import Mathlib

/-
Shallow embedding of cmd/piv-agent/setup.go (piv-agent setup command).

The Go code performs a sequence of effectful calls against a PIV security
key plus host-side crypto.  We embed it as a pure function of an explicit
World oracle that fixes the outcome of every effectful call, and we record
every device interaction and every printed output line in an event trace.
Machine integers (uint64 PIN, 128-bit serial) are modelled as Nat with
explicit bounds where the source imposes them.
-/

namespace PivSetup

/-- Touch policies of the piv library (piv.TouchPolicy). -/
inductive TouchPolicy
  | never
  | always
  | cached
deriving DecidableEq, Repr

/-- PIN policies of the piv library (piv.PINPolicy). -/
inductive PINPolicy
  | never
  | once
  | always
deriving DecidableEq, Repr

/-- Key algorithms of the piv library (piv.Algorithm). -/
inductive Algorithm
  | EC256
  | EC384
  | Ed25519
  | RSA1024
  | RSA2048
deriving DecidableEq, Repr

/-- Key slots of the piv library (piv.Slot). -/
inductive Slot
  | authentication
  | signature
  | cardAuthentication
  | keyManagement
deriving DecidableEq, Repr

/-- setup.go: type slotSpec pairs a slot with a touch policy. -/
structure slotSpec where
  slot : Slot
  touchPolicy : TouchPolicy
deriving DecidableEq, Repr

/-- setup.go lines 36-40: var allKeySpec. -/
def allKeySpec : List slotSpec :=
  [⟨.authentication, .cached⟩, ⟨.signature, .always⟩, ⟨.cardAuthentication, .never⟩]

/-- setup.go lines 42-46: var touchStringMap (total on the three policies). -/
def touchStringMap : TouchPolicy → String
  | .never => "never"
  | .always => "always"
  | .cached => "cached"

/-- A 24-byte management key (Go type [24]byte), bytes as Nat < 256. -/
def MK : Type := { l : List Nat // l.length = 24 }

instance : DecidableEq MK := fun a b =>
  decidable_of_iff (a.val = b.val) Subtype.ext_iff.symm

/-- piv.DefaultManagementKey: 0x01..0x08 repeated three times. -/
def defaultManagementKey : MK :=
  ⟨[1, 2, 3, 4, 5, 6, 7, 8, 1, 2, 3, 4, 5, 6, 7, 8, 1, 2, 3, 4, 5, 6, 7, 8], rfl⟩

/-- piv.DefaultPIN. -/
def defaultPIN : String := "123456"

/-- piv.DefaultPUK. -/
def defaultPUK : String := "12345678"

/-- A calendar instant: a year plus an abstraction of the remaining
(month/day/time) components, which setup.go never alters. -/
structure Time where
  year : Nat
  rest : Nat
deriving DecidableEq, Repr

/-- Go time.Time.AddDate(n, 0, 0) as called at setup.go line 175: adds n
years and leaves the other components unchanged. -/
def Time.addYears (t : Time) (n : Nat) : Time :=
  { t with year := t.year + n }

/-- Go x509.KeyUsage flag constants (1 shifted left by iota). -/
def KeyUsageDigitalSignature : Nat := 1
def KeyUsageContentCommitment : Nat := 2
def KeyUsageKeyEncipherment : Nat := 4
def KeyUsageDataEncipherment : Nat := 8
def KeyUsageKeyAgreement : Nat := 16
def KeyUsageCertSign : Nat := 32
def KeyUsageCRLSign : Nat := 64
def KeyUsageEncipherOnly : Nat := 128
def KeyUsageDecipherOnly : Nat := 256

/-- The fields of an x509 certificate that setup.go sets in its template
(lines 171-179) and that survive the CreateCertificate / ParseCertificate
round trip unchanged. -/
structure Certificate where
  subjectCommonName : String
  notBefore : Time
  notAfter : Time
  serialNumber : Nat
  keyUsage : Nat
deriving DecidableEq, Repr

/-- setup.go lines 171-179: the certificate template built for a slot,
given the clock reading and the serial returned by rand.Int. -/
def mkTemplate (now : Time) (serial : Nat) : Certificate :=
  { subjectCommonName := "SSH key"
    notAfter := now.addYears 64
    notBefore := now
    serialNumber := serial
    keyUsage := KeyUsageKeyAgreement ||| KeyUsageDigitalSignature }

/-- One entry of the trace: a device interaction (with the arguments the
source passes and whether the call succeeded) or a printed output line. -/
inductive Event
  | connect (card : String)
  | queryCert (slot : Slot)
  | reset (ok : Bool)
  | setManagementKey (old new : MK) (ok : Bool)
  | setMetadata (auth stored : MK) (ok : Bool)
  | setPIN (old new : String) (ok : Bool)
  | setPUK (old new : String) (ok : Bool)
  | generateKey (slot : Slot) (alg : Algorithm) (pp : PINPolicy)
      (tp : TouchPolicy) (ok : Bool)
  | setCertificate (slot : Slot) (cert : Certificate) (ok : Bool)
  | printPolicyLine (label : String)
  | printAuthorizedKey (pub : Nat)
deriving DecidableEq

/-- Errors of configureSlot, one per fmt.Errorf site (lines 146-199). -/
inductive SlotErr
  | generateKeyFailed
  | parentKeyFailed
  | serialFailed
  | createCertFailed
  | parseCertFailed
  | setCertificateFailed
  | sshPubKeyFailed
deriving DecidableEq, Repr

/-- Errors of the setup command, one per fmt.Errorf site. -/
inductive Err
  | invalidChars
  | entriesNotEqual
  | invalidPIN
  | getKeyFailed
  | alreadyProvisioned
  | resetFailed
  | certQueryFailed
  | randFailed
  | setManagementKeyFailed
  | setMetadataFailed
  | setPINFailed
  | setPUKFailed
  | slotFailed (slot : Slot) (inner : SlotErr)
deriving DecidableEq, Repr

/-- The validation errors of the error taxonomy: malformed or out-of-range
secret input, raised before any hardware call. -/
def Err.isValidation : Err → Bool
  | .invalidChars => true
  | .entriesNotEqual => true
  | .invalidPIN => true
  | _ => false

/-- Outcome of the k.Certificate query at setup.go line 104: a certificate
is present, the query reports piv.ErrNotFound, or it fails otherwise. -/
inductive CertQueryResult
  | found
  | notFound
  | otherError
deriving DecidableEq, Repr

/-- Oracle for the effectful calls inside one configureSlot invocation. -/
structure SlotEnv where
  /-- k.GenerateKey result: the on-device public key, none on failure. -/
  genPub : Option Nat
  /-- ecdsa.GenerateKey (host-side throwaway parent key) succeeds. -/
  parentOk : Bool
  /-- raw entropy consumed by rand.Int for the serial, none on failure;
  rand.Int reduces it into the half-open range below its bound. -/
  serialRand : Option Nat
  /-- x509.CreateCertificate succeeds. -/
  createOk : Bool
  /-- x509.ParseCertificate succeeds. -/
  parseOk : Bool
  /-- k.SetCertificate succeeds. -/
  setCertOk : Bool
  /-- ssh.NewPublicKey succeeds. -/
  sshOk : Bool
  /-- the clock reading time.Now() during this invocation. -/
  now : Time

/-- Every step of a configureSlot invocation succeeds. -/
def SlotEnv.allOk (e : SlotEnv) : Bool :=
  e.genPub.isSome && e.parentOk && e.serialRand.isSome &&
    e.createOk && e.parseOk && e.setCertOk && e.sshOk

/-- Oracle for the whole setup workflow. -/
structure World where
  /-- getSecurityKey (device open, defined outside setup.go) succeeds. -/
  keyOk : Bool
  /-- outcome of the k.Certificate query on the authentication slot. -/
  certQuery : CertQueryResult
  /-- k.Reset succeeds. -/
  resetOk : Bool
  /-- rand.Read for the fresh 24-byte management key, none on failure. -/
  mkRand : Option MK
  /-- k.SetManagementKey succeeds. -/
  setMgmtOk : Bool
  /-- k.SetMetadata succeeds. -/
  setMetaOk : Bool
  /-- k.SetPIN succeeds. -/
  setPINOk : Bool
  /-- k.SetPUK succeeds. -/
  setPUKOk : Bool
  /-- per-iteration oracle for the slot loop, indexed by loop position. -/
  slotEnv : Nat → SlotEnv

/-- setup.go line 24: the kong-parsed command (PIN is a uint64 flag whose
zero value means the flag was omitted). -/
structure SetupCmd where
  card : String
  resetSecurityKey : Bool
  pin : Nat
  allTouchPolicies : Bool

/-- An ASCII decimal digit byte. -/
def isDigitByte (b : Nat) : Bool := 48 ≤ b && b ≤ 57

/-- Decimal value of a digit-byte string. -/
def digitsVal (l : List Nat) : Nat := l.foldl (fun a b => a * 10 + (b - 48)) 0

/-- Go strconv.ParseUint(s, 10, 64): succeeds exactly on a nonempty string
of decimal digits whose value fits in 64 bits. -/
def parseUint64 (l : List Nat) : Option Nat :=
  if !l.isEmpty && l.all isDigitByte && digitsVal l < 2 ^ 64 then
    some (digitsVal l)
  else
    none

/-- setup.go lines 56-77: interactivePIN.  The two terminal reads are
modelled by the two byte strings; read errors are not modelled.  The first
entry is parsed with ParseUint, then the second must be byte-for-byte
equal to the first (bytes.Equal at line 73). -/
def interactivePIN (entry1 entry2 : List Nat) : Except Err Nat :=
  match parseUint64 entry1 with
  | none => .error .invalidChars
  | some pin => if entry2 = entry1 then .ok pin else .error .entriesNotEqual

/-- setup.go lines 146-199: configureSlot.  Records the device calls it
makes (with the literal key parameters of line 148-152) and the two output
lines printed at lines 195-197. -/
def configureSlot (env : SlotEnv) (slot : Slot) (tp : TouchPolicy) :
    Except SlotErr Unit × List Event :=
  match env.genPub with
  | none => (.error .generateKeyFailed, [.generateKey slot .EC256 .once tp false])
  | some pub =>
    let genEv := Event.generateKey slot .EC256 .once tp true
    if !env.parentOk then (.error .parentKeyFailed, [genEv])
    else
      match env.serialRand with
      | none => (.error .serialFailed, [genEv])
      | some r =>
        let cert := mkTemplate env.now (r % 2 ^ 128)
        if !env.createOk then (.error .createCertFailed, [genEv])
        else if !env.parseOk then (.error .parseCertFailed, [genEv])
        else if !env.setCertOk then
          (.error .setCertificateFailed, [genEv, .setCertificate slot cert false])
        else if !env.sshOk then
          (.error .sshPubKeyFailed, [genEv, .setCertificate slot cert true])
        else
          (.ok (), [genEv, .setCertificate slot cert true,
            .printPolicyLine (touchStringMap tp), .printAuthorizedKey pub])

/-- setup.go lines 138-142: the for loop over the key specs, each paired
with its oracle.  A failing slot is wrapped and aborts the loop. -/
def slotLoop : List (slotSpec × SlotEnv) → Except Err Unit × List Event
  | [] => (.ok (), [])
  | (ss, env) :: rest =>
    match configureSlot env ss.slot ss.touchPolicy with
    | (.ok _, tr) =>
      let r := slotLoop rest
      (r.1, tr ++ r.2)
    | (.error e, tr) => (.error (.slotFailed ss.slot e), tr)

/-- setup.go lines 104-114: the guard on an existing certificate in the
authentication slot, with the optional factory reset. -/
def deviceGuard (cmd : SetupCmd) (w : World) : Except Err Unit × List Event :=
  match w.certQuery with
  | .found =>
    if !cmd.resetSecurityKey then
      (.error .alreadyProvisioned, [.queryCert .authentication])
    else if w.resetOk then (.ok (), [.queryCert .authentication, .reset true])
    else (.error .resetFailed, [.queryCert .authentication, .reset false])
  | .notFound => (.ok (), [.queryCert .authentication])
  | .otherError => (.error .certQueryFailed, [.queryCert .authentication])

/-- setup.go lines 115-131: generate a fresh 24-byte management key from
rand.Read, install it against the default key, persist it in the device
metadata, then set PIN and PUK from their defaults to the decimal
rendering of cmd.PIN. -/
def rotateSecrets (cmd : SetupCmd) (w : World) : Except Err Unit × List Event :=
  match w.mkRand with
  | none => (.error .randFailed, [])
  | some mk =>
    if !w.setMgmtOk then
      (.error .setManagementKeyFailed, [.setManagementKey defaultManagementKey mk false])
    else
      let e1 := Event.setManagementKey defaultManagementKey mk true
      if !w.setMetaOk then (.error .setMetadataFailed, [e1, .setMetadata mk mk false])
      else
        let e2 := Event.setMetadata mk mk true
        let pin := toString cmd.pin
        if !w.setPINOk then
          (.error .setPINFailed, [e1, e2, .setPIN defaultPIN pin false])
        else
          let e3 := Event.setPIN defaultPIN pin true
          if !w.setPUKOk then
            (.error .setPUKFailed, [e1, e2, e3, .setPUK defaultPUK pin false])
          else (.ok (), [e1, e2, e3, .setPUK defaultPUK pin true])

/-- setup.go lines 132-137: single-slot spec, replaced by allKeySpec when
the all-touch-policies flag is set. -/
def keySpec (cmd : SetupCmd) : List slotSpec :=
  if cmd.allTouchPolicies then allKeySpec else [⟨.authentication, .cached⟩]

/-- Pair each key spec of the loop with the oracle of its iteration,
starting at iteration index i. -/
def slotEnvList (f : Nat → SlotEnv) : List slotSpec → Nat → List (slotSpec × SlotEnv)
  | [], _ => []
  | ss :: rest, i => (ss, f i) :: slotEnvList f rest (i + 1)

/-- The part of setup after the device guard: secret rotation then the
slot loop. -/
def afterGuard (cmd : SetupCmd) (w : World) : Except Err Unit × List Event :=
  match rotateSecrets cmd w with
  | (.error e, tr) => (.error e, tr)
  | (.ok _, tr) =>
    let r := slotLoop (slotEnvList w.slotEnv (keySpec cmd) 0)
    (r.1, tr ++ r.2)

/-- setup.go lines 103-144: SetupCmd.setup. -/
def setup (cmd : SetupCmd) (w : World) : Except Err Unit × List Event :=
  match deviceGuard cmd w with
  | (.error e, tr) => (.error e, tr)
  | (.ok _, tr) =>
    let r := afterGuard cmd w
    (r.1, tr ++ r.2)

/-- setup.go lines 93-100: validation of the collected secret, then
getSecurityKey (a device open, recorded as a connect event), then setup. -/
def runWithSecret (cmd : SetupCmd) (collected : Except Err Nat) (w : World) :
    Except Err Unit × List Event :=
  match collected with
  | .error e => (.error e, [])
  | .ok pin =>
    if pin < 100000 || pin > 99999999 then (.error .invalidPIN, [])
    else if !w.keyOk then (.error .getKeyFailed, [.connect cmd.card])
    else
      let r := setup { cmd with pin := pin } w
      (r.1, .connect cmd.card :: r.2)

/-- setup.go lines 80-101: SetupCmd.Run.  A zero PIN flag falls back to
interactive collection (lines 87-92); the zap logger setup is not
modelled. -/
def Run (cmd : SetupCmd) (entry1 entry2 : List Nat) (w : World) :
    Except Err Unit × List Event :=
  runWithSecret cmd
    (if cmd.pin = 0 then interactivePIN entry1 entry2 else .ok cmd.pin) w

/-- The collected candidate secret of a run: the flag value, or the
interactive result when the flag is zero/omitted. -/
def collectedSecret (cmd : SetupCmd) (entry1 entry2 : List Nat) : Except Err Nat :=
  if cmd.pin = 0 then interactivePIN entry1 entry2 else .ok cmd.pin

/-- The slot/touch-policy pairs whose on-device key generation call was
made and succeeded, in trace order. -/
def generatedSlots (tr : List Event) : List (Slot × TouchPolicy) :=
  tr.filterMap fun e =>
    match e with
    | .generateKey s _ _ tp true => some (s, tp)
    | _ => none

/-- The slots whose certificate was successfully stored, in trace order. -/
def certifiedSlots (tr : List Event) : List Slot :=
  tr.filterMap fun e =>
    match e with
    | .setCertificate s _ true => some s
    | _ => none

/-- Concrete slot oracle in which every call succeeds. -/
def envAllOk : SlotEnv :=
  { genPub := some 7, parentOk := true, serialRand := some 42,
    createOk := true, parseOk := true, setCertOk := true, sshOk := true,
    now := ⟨2026, 120⟩ }

/-- Concrete slot oracle in which the on-device key generation fails. -/
def envGenFail : SlotEnv :=
  { envAllOk with genPub := none }

/-- Concrete world in which every call succeeds on a fresh device. -/
def worldAllOk : World :=
  { keyOk := true, certQuery := .notFound, resetOk := true,
    mkRand := some defaultManagementKey, setMgmtOk := true,
    setMetaOk := true, setPINOk := true, setPUKOk := true,
    slotEnv := fun _ => envAllOk }

/-- Concrete world in which the second slot of the loop fails. -/
def worldSlot1Fails : World :=
  { worldAllOk with slotEnv := fun i => if i = 1 then envGenFail else envAllOk }

/-- Concrete command with a flag-supplied PIN, single-slot mode. -/
def cmdFlag : SetupCmd :=
  { card := "", resetSecurityKey := false, pin := 123456,
    allTouchPolicies := false }

/-- Concrete command with an omitted PIN flag, all-touch-policies mode. -/
def cmdPrompt : SetupCmd :=
  { card := "", resetSecurityKey := false, pin := 0, allTouchPolicies := true }

/-- The byte string "123456". -/
def entry123456 : List Nat := [49, 50, 51, 52, 53, 54]

/-- The byte string "123457". -/
def entry123457 : List Nat := [49, 50, 51, 52, 53, 55]

end PivSetup

namespace PivSetup

theorem run_eq_runWithSecret (cmd : SetupCmd) (e1 e2 : List Nat) (w : World) :
    Run cmd e1 e2 w = runWithSecret cmd (collectedSecret cmd e1 e2) w := rfl

theorem setup_guard_err (cmd : SetupCmd) (w : World) (e : Err) (tr : List Event)
    (h : deviceGuard cmd w = (.error e, tr)) : setup cmd w = (.error e, tr) := by
  unfold setup
  rw [h]

theorem setup_guard_ok (cmd : SetupCmd) (w : World) (tr : List Event)
    (h : deviceGuard cmd w = (.ok (), tr)) :
    setup cmd w = ((afterGuard cmd w).1, tr ++ (afterGuard cmd w).2) := by
  unfold setup
  rw [h]

theorem interactivePIN_error_isValidation (e1 e2 : List Nat) (e : Err)
    (h : interactivePIN e1 e2 = .error e) : e.isValidation = true := by
  unfold interactivePIN at h
  rcases hp : parseUint64 e1 with _ | s <;> rw [hp] at h
  · cases h
    rfl
  · by_cases he : e2 = e1 <;> simp [he] at h
    rw [← h]
    rfl

theorem rotateSecrets_ok (cmd : SetupCmd) (w : World) (mk : MK)
    (hmk : w.mkRand = some mk) (h1 : w.setMgmtOk = true)
    (h2 : w.setMetaOk = true) (h3 : w.setPINOk = true)
    (h4 : w.setPUKOk = true) :
    rotateSecrets cmd w = (.ok (),
      [.setManagementKey defaultManagementKey mk true,
       .setMetadata mk mk true,
       .setPIN defaultPIN (toString cmd.pin) true,
       .setPUK defaultPUK (toString cmd.pin) true]) := by
  unfold rotateSecrets
  rw [hmk]
  simp [h1, h2, h3, h4]

theorem configureSlot_allOk (env : SlotEnv) (slot : Slot) (tp : TouchPolicy)
    (h : env.allOk = true) :
    ∃ pub r, env.genPub = some pub ∧ env.serialRand = some r ∧
      configureSlot env slot tp = (.ok (),
        [.generateKey slot .EC256 .once tp true,
         .setCertificate slot (mkTemplate env.now (r % 2 ^ 128)) true,
         .printPolicyLine (touchStringMap tp),
         .printAuthorizedKey pub]) := by
  unfold SlotEnv.allOk at h
  simp only [Bool.and_eq_true, Option.isSome_iff_exists] at h
  obtain ⟨⟨⟨⟨⟨⟨⟨pub, hpub⟩, hpar⟩, r, hr⟩, hc⟩, hp⟩, hs⟩, hssh⟩ := h
  refine ⟨pub, r, hpub, hr, ?_⟩
  unfold configureSlot
  rw [hpub, hr]
  simp [hpar, hc, hp, hs, hssh]

theorem configureSlot_cases (env : SlotEnv) (slot : Slot) (tp : TouchPolicy) :
    (env.allOk = true ∧ (configureSlot env slot tp).1 = .ok ()) ∨
    (env.allOk = false ∧ ∃ e, (configureSlot env slot tp).1 = .error e) := by
  unfold SlotEnv.allOk configureSlot
  rcases env.genPub with _ | pub <;>
  rcases env.serialRand with _ | r <;>
  by_cases hpar : env.parentOk <;>
  by_cases hc : env.createOk <;>
  by_cases hp : env.parseOk <;>
  by_cases hs : env.setCertOk <;>
  by_cases hssh : env.sshOk <;>
  simp [hpar, hc, hp, hs, hssh]

theorem configureSlot_fail (env : SlotEnv) (slot : Slot) (tp : TouchPolicy)
    (h : env.allOk = false) :
    ∃ e, (configureSlot env slot tp).1 = .error e := by
  rcases configureSlot_cases env slot tp with ⟨h1, _⟩ | ⟨_, h2⟩
  · rw [h] at h1
    cases h1
  · exact h2

theorem slotLoop_cons_ok (ss : slotSpec) (env : SlotEnv)
    (rest : List (slotSpec × SlotEnv)) (tr : List Event)
    (h : (configureSlot env ss.slot ss.touchPolicy).2 = tr)
    (hok : (configureSlot env ss.slot ss.touchPolicy).1 = .ok ()) :
    slotLoop ((ss, env) :: rest) =
      ((slotLoop rest).1, tr ++ (slotLoop rest).2) := by
  have hc : configureSlot env ss.slot ss.touchPolicy = (.ok (), tr) := by
    rw [← h, ← hok]
  conv_lhs => rw [slotLoop, hc]

theorem slotLoop_cons_err (ss : slotSpec) (env : SlotEnv)
    (rest : List (slotSpec × SlotEnv)) (e : SlotErr) (tr : List Event)
    (h : (configureSlot env ss.slot ss.touchPolicy).2 = tr)
    (herr : (configureSlot env ss.slot ss.touchPolicy).1 = .error e) :
    slotLoop ((ss, env) :: rest) = (.error (.slotFailed ss.slot e), tr) := by
  have hc : configureSlot env ss.slot ss.touchPolicy = (.error e, tr) := by
    rw [← h, ← herr]
  conv_lhs => rw [slotLoop, hc]

/-- C2: with a certificate in the primary authentication slot, setup fails
with the already-provisioned error and performs no device mutation unless
the overwrite flag is set; with the flag set a factory reset is issued and
a reset failure aborts; a not-found query proceeds past the guard; any
other query failure is fatal. -/
theorem c2_device_guard (cmd : SetupCmd) (w : World) :
    (w.certQuery = .found → cmd.resetSecurityKey = false →
      setup cmd w = (.error .alreadyProvisioned, [.queryCert .authentication])) ∧
    (w.certQuery = .found → cmd.resetSecurityKey = true → w.resetOk = false →
      setup cmd w = (.error .resetFailed,
        [.queryCert .authentication, .reset false])) ∧
    (w.certQuery = .found → cmd.resetSecurityKey = true → w.resetOk = true →
      setup cmd w = ((afterGuard cmd w).1,
        .queryCert .authentication :: .reset true :: (afterGuard cmd w).2)) ∧
    (w.certQuery = .notFound →
      setup cmd w = ((afterGuard cmd w).1,
        .queryCert .authentication :: (afterGuard cmd w).2)) ∧
    (w.certQuery = .otherError →
      setup cmd w = (.error .certQueryFailed, [.queryCert .authentication])) := by
  refine ⟨?_, ?_, ?_, ?_, ?_⟩
  · intro hq hr
    apply setup_guard_err
    unfold deviceGuard
    rw [hq]
    simp [hr]
  · intro hq hr hreset
    apply setup_guard_err
    unfold deviceGuard
    rw [hq]
    simp [hr, hreset]
  · intro hq hr hreset
    have hg : deviceGuard cmd w =
        (.ok (), [.queryCert .authentication, .reset true]) := by
      unfold deviceGuard
      rw [hq]
      simp [hr, hreset]
    rw [setup_guard_ok cmd w _ hg]
    rfl
  · intro hq
    have hg : deviceGuard cmd w = (.ok (), [.queryCert .authentication]) := by
      unfold deviceGuard
      rw [hq]
    rw [setup_guard_ok cmd w _ hg]
    rfl
  · intro hq
    apply setup_guard_err
    unfold deviceGuard
    rw [hq]

theorem c2_witness :
    setup cmdFlag { worldAllOk with certQuery := .found } =
      (.error .alreadyProvisioned, [.queryCert .authentication]) :=
  (c2_device_guard cmdFlag { worldAllOk with certQuery := .found }).1 rfl rfl

/-- C3: secret rotation generates a fresh 24-byte management key, installs
it against the default management key, persists it in the metadata store,
then sets PIN and PUK from their defaults to the same decimal rendering of
the operator secret, in that order, each step at most once, any failure
aborting the remaining steps. -/
theorem c3_secret_rotation (cmd : SetupCmd) (w : World) :
    (w.mkRand = none → rotateSecrets cmd w = (.error .randFailed, [])) ∧
    (∀ mk : MK, w.mkRand = some mk →
      mk.val.length = 24 ∧
      (w.setMgmtOk = false →
        rotateSecrets cmd w = (.error .setManagementKeyFailed,
          [.setManagementKey defaultManagementKey mk false])) ∧
      (w.setMgmtOk = true → w.setMetaOk = false →
        rotateSecrets cmd w = (.error .setMetadataFailed,
          [.setManagementKey defaultManagementKey mk true,
           .setMetadata mk mk false])) ∧
      (w.setMgmtOk = true → w.setMetaOk = true → w.setPINOk = false →
        rotateSecrets cmd w = (.error .setPINFailed,
          [.setManagementKey defaultManagementKey mk true,
           .setMetadata mk mk true,
           .setPIN defaultPIN (toString cmd.pin) false])) ∧
      (w.setMgmtOk = true → w.setMetaOk = true → w.setPINOk = true →
        w.setPUKOk = false →
        rotateSecrets cmd w = (.error .setPUKFailed,
          [.setManagementKey defaultManagementKey mk true,
           .setMetadata mk mk true,
           .setPIN defaultPIN (toString cmd.pin) true,
           .setPUK defaultPUK (toString cmd.pin) false])) ∧
      (w.setMgmtOk = true → w.setMetaOk = true → w.setPINOk = true →
        w.setPUKOk = true →
        rotateSecrets cmd w = (.ok (),
          [.setManagementKey defaultManagementKey mk true,
           .setMetadata mk mk true,
           .setPIN defaultPIN (toString cmd.pin) true,
           .setPUK defaultPUK (toString cmd.pin) true]))) := by
  constructor
  · intro h
    unfold rotateSecrets
    rw [h]
  · intro mk hmk
    refine ⟨mk.property, ?_, ?_, ?_, ?_, ?_⟩ <;>
      intros <;> unfold rotateSecrets <;> rw [hmk] <;> simp_all

theorem c3_witness :
    rotateSecrets cmdFlag worldAllOk = (.ok (),
      [.setManagementKey defaultManagementKey defaultManagementKey true,
       .setMetadata defaultManagementKey defaultManagementKey true,
       .setPIN defaultPIN (toString cmdFlag.pin) true,
       .setPUK defaultPUK (toString cmdFlag.pin) true]) :=
  ((c3_secret_rotation cmdFlag worldAllOk).2 defaultManagementKey
    rfl).2.2.2.2.2 rfl rfl rfl rfl

/-- C8: a flag-supplied PIN of zero is indistinguishable from omitting the
flag: the run falls back to interactive collection; a nonzero flag ignores
the interactive entries entirely; and a collected secret of zero would in
any case fail range validation before any hardware call. -/
theorem c8_zero_pin_flag (cmd : SetupCmd) (e1 e2 : List Nat) (w : World) :
    (cmd.pin = 0 →
      Run cmd e1 e2 w = runWithSecret cmd (interactivePIN e1 e2) w) ∧
    (cmd.pin ≠ 0 → ∀ f1 f2, Run cmd e1 e2 w = Run cmd f1 f2 w) ∧
    runWithSecret cmd (.ok 0) w = (.error .invalidPIN, []) := by
  refine ⟨?_, ?_, ?_⟩
  · intro h
    unfold Run
    rw [if_pos h]
  · intro h f1 f2
    unfold Run
    rw [if_neg h, if_neg h]
  · unfold runWithSecret
    norm_num

/-- C1: a run touches the device exactly when the collected candidate
secret is a number in the closed range 100000 to 99999999 (interactive
candidates must additionally parse); any other candidate fails the run
with a validation error and an empty trace, before any hardware call. -/
theorem c1_secret_validation (cmd : SetupCmd) (e1 e2 : List Nat) (w : World) :
    (Event.connect cmd.card ∈ (Run cmd e1 e2 w).2 ↔
      ∃ s, collectedSecret cmd e1 e2 = .ok s ∧ 100000 ≤ s ∧ s ≤ 99999999) ∧
    (∀ e, collectedSecret cmd e1 e2 = .error e →
      Run cmd e1 e2 w = (.error e, []) ∧ e.isValidation = true) ∧
    (∀ s, collectedSecret cmd e1 e2 = .ok s → (s < 100000 ∨ 99999999 < s) →
      Run cmd e1 e2 w = (.error .invalidPIN, [])) := by
  have hrun := run_eq_runWithSecret cmd e1 e2 w
  rcases hcol : collectedSecret cmd e1 e2 with e | s
  · rw [hcol] at hrun
    have hre : Run cmd e1 e2 w = (.error e, []) := hrun
    refine ⟨?_, ?_, ?_⟩
    · rw [hre]
      constructor
      · intro hmem
        simp at hmem
      · rintro ⟨s, hs, -⟩
        cases hs
    · intro e3 he3
      injection he3 with he3
      subst he3
      refine ⟨hre, ?_⟩
      unfold collectedSecret at hcol
      by_cases hz : cmd.pin = 0
      · rw [if_pos hz] at hcol
        exact interactivePIN_error_isValidation e1 e2 _ hcol
      · rw [if_neg hz] at hcol
        cases hcol
    · intro s hs
      cases hs
  · rw [hcol] at hrun
    by_cases hrange : s < 100000 ∨ 99999999 < s
    · have hbool : (decide (s < 100000) || decide (s > 99999999)) = true := by
        rcases hrange with h | h <;> simp [h]
      have hre : Run cmd e1 e2 w = (.error .invalidPIN, []) := by
        rw [hrun]
        simp [runWithSecret, hbool]
      refine ⟨?_, ?_, ?_⟩
      · rw [hre]
        constructor
        · intro hmem
          simp at hmem
        · rintro ⟨s2, hs2, hlo, hhi⟩
          injection hs2 with hs2
          subst hs2
          omega
      · intro e3 he3
        cases he3
      · intro s2 hs2 hr2
        exact hre
    · have hbool : (decide (s < 100000) || decide (s > 99999999)) = false := by
        simp only [Bool.or_eq_false_iff, decide_eq_false_iff_not]
        omega
      have hmem : Event.connect cmd.card ∈ (Run cmd e1 e2 w).2 := by
        rw [hrun]
        by_cases hk : w.keyOk <;> simp [runWithSecret, hbool, hk]
      refine ⟨?_, ?_, ?_⟩
      · exact ⟨fun _ => ⟨s, rfl, by omega, by omega⟩, fun _ => hmem⟩
      · intro e3 he3
        cases he3
      · intro s2 hs2 hr2
        injection hs2 with hs2
        subst hs2
        omega

theorem c1_witness :
    (Event.connect cmdFlag.card ∈ (Run cmdFlag [] [] worldAllOk).2) ∧
    Run { cmdFlag with pin := 12345 } [] [] worldAllOk =
      (.error .invalidPIN, []) :=
  ⟨(c1_secret_validation cmdFlag [] [] worldAllOk).1.mpr
      ⟨123456, rfl, by norm_num, by norm_num⟩,
   (c1_secret_validation { cmdFlag with pin := 12345 } [] [] worldAllOk).2.2
      12345 rfl (by norm_num)⟩

theorem mkTemplate_fields (now : Time) (r : Nat) :
    (mkTemplate now (r % 2 ^ 128)).subjectCommonName = "SSH key" ∧
    (mkTemplate now (r % 2 ^ 128)).notBefore = now ∧
    (mkTemplate now (r % 2 ^ 128)).notAfter = now.addYears 64 ∧
    (mkTemplate now (r % 2 ^ 128)).serialNumber < 2 ^ 128 ∧
    (mkTemplate now (r % 2 ^ 128)).serialNumber = r % 2 ^ 128 ∧
    (mkTemplate now (r % 2 ^ 128)).keyUsage =
      (KeyUsageKeyAgreement ||| KeyUsageDigitalSignature) :=
  ⟨rfl, rfl, rfl, Nat.mod_lt _ (by norm_num), rfl, rfl⟩

/-- C5: every certificate a slot configuration stores on the device has
subject common name SSH key, a validity window from the clock reading to
exactly 64 years later, a serial number reduced into the half-open range
below 2 to the 128, and key usage exactly KeyAgreement with
DigitalSignature. -/
theorem c5_certificate_shape (env : SlotEnv) (slot : Slot) (tp : TouchPolicy)
    (cert : Certificate) (ok : Bool)
    (h : Event.setCertificate slot cert ok ∈ (configureSlot env slot tp).2) :
    cert.subjectCommonName = "SSH key" ∧
    cert.notBefore = env.now ∧
    cert.notAfter = env.now.addYears 64 ∧
    cert.serialNumber < 2 ^ 128 ∧
    (∃ r, env.serialRand = some r ∧ cert.serialNumber = r % 2 ^ 128) ∧
    cert.keyUsage = (KeyUsageKeyAgreement ||| KeyUsageDigitalSignature) := by
  unfold configureSlot at h
  revert h
  rcases env.genPub with _ | pub
  · intro h
    simp at h
  rcases env.serialRand with _ | r
  · by_cases hpar : env.parentOk <;> intro h <;> simp [hpar] at h
  by_cases hpar : env.parentOk <;>
    by_cases hc : env.createOk <;>
    by_cases hp : env.parseOk <;>
    by_cases hs : env.setCertOk <;>
    by_cases hssh : env.sshOk <;>
    intro h <;>
    simp [hpar, hc, hp, hs, hssh] at h <;>
    (obtain ⟨hcert, -⟩ := h
     subst hcert
     exact ⟨rfl, rfl, rfl, Nat.mod_lt _ (by norm_num), ⟨r, rfl, rfl⟩, rfl⟩)

theorem c5_witness :
    (envAllOk.genPub = some 7 ∧
      Event.setCertificate Slot.authentication
        (mkTemplate envAllOk.now (42 % 2 ^ 128)) true ∈
        (configureSlot envAllOk .authentication .cached).2) ∧
    (mkTemplate envAllOk.now (42 % 2 ^ 128)).subjectCommonName = "SSH key" ∧
    (mkTemplate envAllOk.now (42 % 2 ^ 128)).notAfter =
      envAllOk.now.addYears 64 := by
  refine ⟨⟨rfl, by decide⟩, ?_, ?_⟩
  · exact (c5_certificate_shape envAllOk .authentication .cached _ true
      (by decide)).1
  · exact (c5_certificate_shape envAllOk .authentication .cached _ true
      (by decide)).2.2.1

/-- C4: on a fresh device with every call succeeding, single-slot mode
generates and certifies exactly the authentication slot with the cached
touch policy, and all-touch-policies mode exactly the three slots of the
fixed table, in table order: authentication cached, signature always,
card-authentication never. -/
theorem c4_slot_modes (cmd : SetupCmd) (w : World)
    (hq : w.certQuery = .notFound) (hmk : ∃ mk, w.mkRand = some mk)
    (h1 : w.setMgmtOk = true) (h2 : w.setMetaOk = true)
    (h3 : w.setPINOk = true) (h4 : w.setPUKOk = true)
    (hok : ∀ i, (w.slotEnv i).allOk = true) :
    (cmd.allTouchPolicies = false →
      generatedSlots (setup cmd w).2 =
        [(Slot.authentication, TouchPolicy.cached)] ∧
      certifiedSlots (setup cmd w).2 = [Slot.authentication]) ∧
    (cmd.allTouchPolicies = true →
      generatedSlots (setup cmd w).2 =
        [(Slot.authentication, TouchPolicy.cached),
         (Slot.signature, TouchPolicy.always),
         (Slot.cardAuthentication, TouchPolicy.never)] ∧
      certifiedSlots (setup cmd w).2 =
        [Slot.authentication, Slot.signature, Slot.cardAuthentication]) := by
  obtain ⟨mk, hmk⟩ := hmk
  have hg : deviceGuard cmd w = (.ok (), [.queryCert .authentication]) := by
    unfold deviceGuard
    rw [hq]
  have hrot := rotateSecrets_ok cmd w mk hmk h1 h2 h3 h4
  have hsetup := setup_guard_ok cmd w _ hg
  obtain ⟨pub0, r0, -, -, hcs0⟩ :=
    configureSlot_allOk (w.slotEnv 0) .authentication .cached (hok 0)
  obtain ⟨pub1, r1, -, -, hcs1⟩ :=
    configureSlot_allOk (w.slotEnv 1) .signature .always (hok 1)
  obtain ⟨pub2, r2, -, -, hcs2⟩ :=
    configureSlot_allOk (w.slotEnv 2) .cardAuthentication .never (hok 2)
  have haf : afterGuard cmd w =
      ((slotLoop (slotEnvList w.slotEnv (keySpec cmd) 0)).1,
        [Event.setManagementKey defaultManagementKey mk true,
         .setMetadata mk mk true,
         .setPIN defaultPIN (toString cmd.pin) true,
         .setPUK defaultPUK (toString cmd.pin) true] ++
          (slotLoop (slotEnvList w.slotEnv (keySpec cmd) 0)).2) := by
    unfold afterGuard
    rw [hrot]
  constructor
  · intro hmode
    have hl : slotEnvList w.slotEnv (keySpec cmd) 0 =
        [(⟨Slot.authentication, TouchPolicy.cached⟩, w.slotEnv 0)] := by
      unfold keySpec
      rw [hmode]
      rfl
    rw [hsetup, haf, hl]
    refine ⟨?_, ?_⟩ <;>
      simp [slotLoop, hcs0, generatedSlots, certifiedSlots]
  · intro hmode
    have hl : slotEnvList w.slotEnv (keySpec cmd) 0 =
        [(⟨Slot.authentication, TouchPolicy.cached⟩, w.slotEnv 0),
         (⟨Slot.signature, TouchPolicy.always⟩, w.slotEnv 1),
         (⟨Slot.cardAuthentication, TouchPolicy.never⟩, w.slotEnv 2)] := by
      unfold keySpec
      rw [hmode]
      rfl
    rw [hsetup, haf, hl]
    refine ⟨?_, ?_⟩ <;>
      simp [slotLoop, hcs0, hcs1, hcs2, generatedSlots, certifiedSlots]

theorem c4_witness :
    generatedSlots
        (setup { cmdFlag with allTouchPolicies := true } worldAllOk).2 =
      [(Slot.authentication, TouchPolicy.cached),
       (Slot.signature, TouchPolicy.always),
       (Slot.cardAuthentication, TouchPolicy.never)] :=
  ((c4_slot_modes { cmdFlag with allTouchPolicies := true } worldAllOk rfl
    ⟨defaultManagementKey, rfl⟩ rfl rfl rfl rfl (fun _ => rfl)).2 rfl).1

/-- C6: when the slot at position i of the loop is the first whose
configuration fails, the loop returns a wrapped error, its trace is
exactly the full traces of the slots before i followed by the partial
trace of slot i (so no later slot is attempted and nothing is rolled
back), and every slot before i has stored its certificate and printed its
public key. -/
theorem c6_partial_progress (l : List (slotSpec × SlotEnv)) (i : Nat)
    (hi : i < l.length)
    (hpre : ∀ j (hj : j < i), ((l.get ⟨j, hj.trans hi⟩).2).allOk = true)
    (hfail : ((l.get ⟨i, hi⟩).2).allOk = false) :
    (∃ e, slotLoop l = (.error (.slotFailed (l.get ⟨i, hi⟩).1.slot e),
      (l.take i).flatMap
          (fun p => (configureSlot p.2 p.1.slot p.1.touchPolicy).2) ++
        (configureSlot (l.get ⟨i, hi⟩).2 (l.get ⟨i, hi⟩).1.slot
          (l.get ⟨i, hi⟩).1.touchPolicy).2)) ∧
    (∀ j (hj : j < i), ∃ pub cert,
      Event.setCertificate (l.get ⟨j, hj.trans hi⟩).1.slot cert true ∈
        (slotLoop l).2 ∧
      Event.printAuthorizedKey pub ∈ (slotLoop l).2) := by
  induction l generalizing i with
  | nil => exact absurd hi (Nat.not_lt_zero i)
  | cons x rest ih =>
    obtain ⟨ss, env⟩ := x
    cases i with
    | zero =>
      obtain ⟨e, he⟩ := configureSlot_fail env ss.slot ss.touchPolicy hfail
      have hl := slotLoop_cons_err ss env rest e _ rfl he
      refine ⟨⟨e, by rw [hl]; rfl⟩, ?_⟩
      intro j hj
      exact absurd hj (Nat.not_lt_zero j)
    | succ i' =>
      have hok0 : env.allOk = true := hpre 0 (Nat.succ_pos i')
      obtain ⟨pub, r, -, -, hcs⟩ :=
        configureSlot_allOk env ss.slot ss.touchPolicy hok0
      have hstep := slotLoop_cons_ok ss env rest _ rfl (by rw [hcs])
      have hi' : i' < rest.length := Nat.lt_of_succ_lt_succ hi
      have hpre' : ∀ j (hj : j < i'),
          ((rest.get ⟨j, hj.trans hi'⟩).2).allOk = true := by
        intro j hj
        have := hpre (j + 1) (Nat.succ_lt_succ hj)
        rwa [List.get_cons_succ] at this
      have hfail' : ((rest.get ⟨i', hi'⟩).2).allOk = false := by
        rwa [List.get_cons_succ] at hfail
      obtain ⟨⟨e, he⟩, hprints⟩ := ih i' hi' hpre' hfail'
      constructor
      · refine ⟨e, ?_⟩
        rw [hstep, he]
        simp only [List.take_succ_cons, List.flatMap_cons, List.get_cons_succ]
        rw [List.append_assoc]
      · intro j hj
        cases j with
        | zero =>
          refine ⟨pub, mkTemplate env.now (r % 2 ^ 128), ?_, ?_⟩ <;>
            rw [hstep] <;> rw [hcs] <;> simp
        | succ j' =>
          have hj' : j' < i' := Nat.lt_of_succ_lt_succ hj
          obtain ⟨pub2, cert2, hc2, hp2⟩ := hprints j' hj'
          rw [List.get_cons_succ]
          refine ⟨pub2, cert2, ?_, ?_⟩ <;> rw [hstep] <;> simp <;>
            [exact Or.inr hc2; exact Or.inr hp2]

theorem c6_witness :
    ∃ e, slotLoop
        [(⟨Slot.authentication, TouchPolicy.cached⟩, envAllOk),
         (⟨Slot.signature, TouchPolicy.always⟩, envGenFail)] =
      (.error (.slotFailed Slot.signature e),
        (configureSlot envAllOk .authentication .cached).2 ++
          (configureSlot envGenFail .signature .always).2) := by
  obtain ⟨⟨e, he⟩, -⟩ := c6_partial_progress
    [(⟨Slot.authentication, TouchPolicy.cached⟩, envAllOk),
     (⟨Slot.signature, TouchPolicy.always⟩, envGenFail)] 1
    (by norm_num)
    (by intro j hj
        interval_cases j
        rfl)
    rfl
  refine ⟨e, ?_⟩
  rw [he]
  rfl

/-- C7: interactive secret collection accepts only two byte-for-byte equal
entries; a non-numeric first entry or a mismatch fails the run with a
validation error and an empty trace, so no device interaction occurs. -/
theorem c7_interactive (cmd : SetupCmd) (e1 e2 : List Nat) (w : World)
    (h0 : cmd.pin = 0) :
    (∀ s, interactivePIN e1 e2 = .ok s → e2 = e1) ∧
    (parseUint64 e1 = none → Run cmd e1 e2 w = (.error .invalidChars, [])) ∧
    (∀ s, parseUint64 e1 = some s → e2 ≠ e1 →
      Run cmd e1 e2 w = (.error .entriesNotEqual, [])) := by
  refine ⟨?_, ?_, ?_⟩
  · intro s hs
    unfold interactivePIN at hs
    cases hpq : parseUint64 e1 <;> rw [hpq] at hs
    · simp at hs
    · by_cases he : e2 = e1
      · exact he
      · simp [he] at hs
  · intro hp
    unfold Run interactivePIN
    rw [if_pos h0, hp]
    rfl
  · intro s hp hne
    unfold Run interactivePIN
    rw [if_pos h0, hp]
    simp only [if_neg hne]
    rfl

theorem c7_witness :
    Run cmdPrompt entry123456 entry123457 worldAllOk =
      (.error .entriesNotEqual, []) :=
  (c7_interactive cmdPrompt entry123456 entry123457 worldAllOk rfl).2.2
    123456 (by decide) (by decide)

/-- An event is either not an on-device key generation, or one whose key
parameters are the EC256 algorithm and the once PIN policy. -/
def genParamsStd : Event → Bool
  | .generateKey _ a p _ _ => a == Algorithm.EC256 && p == PINPolicy.once
  | _ => true

theorem configureSlot_genParams (env : SlotEnv) (slot : Slot)
    (tp : TouchPolicy) :
    ((configureSlot env slot tp).2).all genParamsStd = true := by
  unfold configureSlot
  rcases env.genPub with _ | pub <;>
  rcases env.serialRand with _ | r <;>
  by_cases hpar : env.parentOk <;>
  by_cases hc : env.createOk <;>
  by_cases hp : env.parseOk <;>
  by_cases hs : env.setCertOk <;>
  by_cases hssh : env.sshOk <;>
  simp [hpar, hc, hp, hs, hssh, genParamsStd]

theorem slotLoop_genParams (l : List (slotSpec × SlotEnv)) :
    ((slotLoop l).2).all genParamsStd = true := by
  induction l with
  | nil => rfl
  | cons x rest ih =>
    obtain ⟨ss, env⟩ := x
    have htr := configureSlot_genParams env ss.slot ss.touchPolicy
    rcases hcs : configureSlot env ss.slot ss.touchPolicy with ⟨res, tr⟩
    rw [hcs] at htr
    rcases res with e | u
    · rw [slotLoop_cons_err ss env rest e tr (by rw [hcs]) (by rw [hcs])]
      exact htr
    · cases u
      rw [slotLoop_cons_ok ss env rest tr (by rw [hcs]) (by rw [hcs])]
      simp only [List.all_append]
      rw [htr, ih]
      rfl

theorem deviceGuard_genParams (cmd : SetupCmd) (w : World) :
    ((deviceGuard cmd w).2).all genParamsStd = true := by
  unfold deviceGuard
  rcases w.certQuery <;>
  by_cases hr : cmd.resetSecurityKey <;>
  by_cases ho : w.resetOk <;>
  simp [hr, ho, genParamsStd]

theorem rotateSecrets_genParams (cmd : SetupCmd) (w : World) :
    ((rotateSecrets cmd w).2).all genParamsStd = true := by
  unfold rotateSecrets
  rcases w.mkRand with _ | mk <;>
  by_cases h1 : w.setMgmtOk <;>
  by_cases h2 : w.setMetaOk <;>
  by_cases h3 : w.setPINOk <;>
  by_cases h4 : w.setPUKOk <;>
  simp [h1, h2, h3, h4, genParamsStd]

theorem afterGuard_genParams (cmd : SetupCmd) (w : World) :
    ((afterGuard cmd w).2).all genParamsStd = true := by
  have hrot := rotateSecrets_genParams cmd w
  unfold afterGuard
  rcases hr : rotateSecrets cmd w with ⟨res, tr⟩
  rw [hr] at hrot
  rcases res with e | u
  · exact hrot
  · cases u
    simp only [List.all_append]
    rw [hrot, slotLoop_genParams]
    rfl

theorem setup_genParams (cmd : SetupCmd) (w : World) :
    ((setup cmd w).2).all genParamsStd = true := by
  have hg := deviceGuard_genParams cmd w
  unfold setup
  rcases hd : deviceGuard cmd w with ⟨res, tr⟩
  rw [hd] at hg
  rcases res with e | u
  · exact hg
  · cases u
    simp only [List.all_append]
    rw [hg, afterGuard_genParams]
    rfl

theorem run_genParams (cmd : SetupCmd) (e1 e2 : List Nat) (w : World) :
    ((Run cmd e1 e2 w).2).all genParamsStd = true := by
  unfold Run runWithSecret
  rcases (if cmd.pin = 0 then interactivePIN e1 e2 else Except.ok cmd.pin)
    with e | s
  · rfl
  · by_cases hrange : s < 100000 || s > 99999999
    · simp [hrange]
    · by_cases hk : w.keyOk <;>
        simp [hrange, hk, genParamsStd, setup_genParams]

/-- C9: every on-device key generation performed anywhere in a run uses
the EC256 algorithm and the once PIN policy, regardless of slot and touch
policy. -/
theorem c9_key_params (cmd : SetupCmd) (e1 e2 : List Nat) (w : World)
    (slot : Slot) (alg : Algorithm) (pp : PINPolicy) (tp : TouchPolicy)
    (ok : Bool)
    (h : Event.generateKey slot alg pp tp ok ∈ (Run cmd e1 e2 w).2) :
    alg = .EC256 ∧ pp = .once := by
  have hall := run_genParams cmd e1 e2 w
  rw [List.all_eq_true] at hall
  have hx := hall _ h
  simp [genParamsStd] at hx
  exact hx

theorem c9_witness : Algorithm.EC256 = .EC256 ∧ PINPolicy.once = .once :=
  c9_key_params cmdFlag [] [] worldAllOk .authentication .EC256 .once
    .cached true (by decide)

/-- C10: the touch-policy line and the authorized-key line are emitted by
a slot configuration only when its certificate store succeeded, and in
the trace both prints come after the successful certificate store. -/
theorem c10_print_after_store (env : SlotEnv) (slot : Slot) (tp : TouchPolicy)
    (h : ∃ e ∈ (configureSlot env slot tp).2,
        (∃ s, e = Event.printPolicyLine s) ∨
          ∃ pk, e = Event.printAuthorizedKey pk) :
    ∃ pub r, env.genPub = some pub ∧ env.serialRand = some r ∧
      env.setCertOk = true ∧
      configureSlot env slot tp = (.ok (),
        [.generateKey slot .EC256 .once tp true,
         .setCertificate slot (mkTemplate env.now (r % 2 ^ 128)) true,
         .printPolicyLine (touchStringMap tp),
         .printAuthorizedKey pub]) := by
  unfold configureSlot at h ⊢
  revert h
  rcases env.genPub with _ | pub
  · intro h
    simp at h
  rcases env.serialRand with _ | r
  · by_cases hpar : env.parentOk <;> intro h <;> simp [hpar] at h
  by_cases hpar : env.parentOk <;>
    by_cases hc : env.createOk <;>
    by_cases hp : env.parseOk <;>
    by_cases hs : env.setCertOk <;>
    by_cases hssh : env.sshOk <;>
    intro h <;>
    simp [hpar, hc, hp, hs, hssh] at h
  refine ⟨pub, r, rfl, rfl, ?_, ?_⟩
  · simpa using hs
  · simp [hpar, hc, hp, hs, hssh]

theorem c10_witness :
    ∃ pub r, envAllOk.genPub = some pub ∧ envAllOk.serialRand = some r ∧
      envAllOk.setCertOk = true ∧
      configureSlot envAllOk .signature .always = (.ok (),
        [.generateKey .signature .EC256 .once .always true,
         .setCertificate .signature
           (mkTemplate envAllOk.now (r % 2 ^ 128)) true,
         .printPolicyLine (touchStringMap .always),
         .printAuthorizedKey pub]) :=
  c10_print_after_store envAllOk .signature .always
    ⟨Event.printPolicyLine "always", by decide, Or.inl ⟨"always", rfl⟩⟩

theorem c8_witness :
    Run cmdPrompt entry123456 entry123456 worldAllOk =
      runWithSecret cmdPrompt (interactivePIN entry123456 entry123456)
        worldAllOk ∧
    runWithSecret cmdPrompt (.ok 0) worldAllOk = (.error .invalidPIN, []) :=
  ⟨(c8_zero_pin_flag cmdPrompt entry123456 entry123456 worldAllOk).1 rfl,
   (c8_zero_pin_flag cmdPrompt entry123456 entry123456 worldAllOk).2.2⟩

end PivSetup
